import Mathlib

/-!
Shallow embedding of `shell::AndroidShellHolder`
(`src/shell/platform/android/android_shell_holder.cc`) together with proofs
about its lifecycle, task-posting and teardown behaviour.

Modelling choices:
- Payload types (`RunConfiguration`, `ViewportMetrics`, `PointerDataPacket`
  contents, `Settings`) and object identities (`Engine`,
  `PlatformViewAndroid`) are abstracted to natural numbers; nullable and
  weak pointers become `Option`.
- Each worker thread's task queue is an explicit list of `Task`s; posting a
  task appends to the owning queue (`PostTask` is FIFO).
- The bodies of the posted lambdas are embedded as functions from the
  captured state — plus oracles for the OS call `setpriority` and for
  `Engine::Run`'s success — to the list of observable events they perform
  when the task is eventually executed on its thread.
- `Shell::Create` (an external collaborator, out of the excerpt) is an
  input of the constructor: an optional `Shell`, `none` when assembly
  fails, together with whether it invoked the platform-view factory
  callback (which is what captures `weak_platform_view`).
-/

namespace shell

/-- RunConfiguration payload, abstracted to its identity. -/
abbrev RunConfiguration := Nat

/-- ViewportMetrics payload, abstracted to its identity. -/
abbrev ViewportMetrics := Nat

/-- Contents of a `blink::PointerDataPacket`, abstracted to its identity.
A `std::unique_ptr<PointerDataPacket>` is `Option PointerData`
(`none` = null pointer). -/
abbrev PointerData := Nat

/-- blink::Settings, abstracted to its identity (the holder only stores it). -/
abbrev Settings := Nat

/-- Identity of the engine object reached through `Shell::GetEngine()`. -/
abbrev Engine := Nat

/-- Identity of the `PlatformViewAndroid` object. -/
abbrev PlatformViewAndroid := Nat

/-- Rasterizer::ScreenshotType, abstracted to its identity. -/
abbrev ScreenshotType := Nat

namespace Rasterizer

/-- Rasterizer::Screenshot: image bytes (null = `none`) and a size,
mirroring the `{nullptr, SkISize::MakeEmpty()}` aggregate in the source. -/
structure Screenshot where
  data : Option (List Nat)
  size : Nat × Nat

end Rasterizer

/-- SkISize::MakeEmpty(): the empty size. -/
def SkISize.MakeEmpty : Nat × Nat := (0, 0)

/-- The assembled engine instance (`Shell`), as the holder uses it:
`GetEngine()` yields a weak engine handle (captured into posted tasks) and
`Screenshot(type, base64_encode)` yields a result synchronously. -/
structure Shell where
  engine : Option Engine
  screenshotResult : ScreenshotType → Bool → Rasterizer.Screenshot

/-- A task posted to one of the worker queues, identified by which lambda
in the source produced it together with the state it captured. -/
inductive Task where
  | jniExit (key : Nat)
  | gpuPriority
  | uiPriority
  | launch (engine : Option Engine) (config : RunConfiguration)
  | setViewportMetrics (engine : Option Engine) (metrics : ViewportMetrics)
  | dispatchPointerDataPacket (engine : Option Engine) (packet : Option PointerData)
deriving DecidableEq

/-- State of an `AndroidShellHolder` instance: the stored fields of the
class plus the three worker queues owned by its `ThreadHost`. -/
structure AndroidShellHolder where
  settings : Settings
  java_object : Nat
  thread_destruct_key : Nat
  ui_queue : List Task
  gpu_queue : List Task
  io_queue : List Task
  shell : Option Shell
  platform_view : Option PlatformViewAndroid
  is_valid : Bool

/-- Inputs of construction that come from outside the translation unit:
the key handed out by `pthread_key_create` (its failure is a fatal
process abort, not a reachable state), the result of `Shell::Create`, and
whether `Shell::Create` invoked `on_create_platform_view` (which is what
assigns `weak_platform_view`). -/
structure CreateEnv where
  key : Nat
  shellCreate : Option Shell
  callbackInvoked : Bool
  platformViewHandle : PlatformViewAndroid

/-- AndroidShellHolder::AndroidShellHolder (lines 24-105): create the
thread host, post `jni_exit_task` to the UI and GPU queues, run
`Shell::Create`, capture the weak platform view, set `is_valid_`, and —
only when valid — post the priority-tuning tasks to the GPU and
UI queues.  (The static `shell_count` label only names threads and is not
modelled.) -/
def AndroidShellHolder.construct (env : CreateEnv) (settings : Settings)
    (java_object : Nat) : AndroidShellHolder :=
  let key := env.key
  let ui0 : List Task := [Task.jniExit key]
  let gpu0 : List Task := [Task.jniExit key]
  let io0 : List Task := []
  let shell := env.shellCreate
  let platform_view :=
    if env.callbackInvoked then some env.platformViewHandle else none
  let is_valid := shell.isSome
  let gpu1 := if is_valid then gpu0 ++ [Task.gpuPriority] else gpu0
  let ui1 := if is_valid then ui0 ++ [Task.uiPriority] else ui0
  { settings := settings
    java_object := java_object
    thread_destruct_key := key
    ui_queue := ui1
    gpu_queue := gpu1
    io_queue := io0
    shell := shell
    platform_view := platform_view
    is_valid := is_valid }

/-- AndroidShellHolder::IsValid (lines 117-119). -/
def AndroidShellHolder.IsValid (h : AndroidShellHolder) : Bool :=
  h.is_valid

/-- AndroidShellHolder::GetSettings (lines 121-123). -/
def AndroidShellHolder.GetSettings (h : AndroidShellHolder) : Settings :=
  h.settings

/-- AndroidShellHolder::Launch (lines 125-140): early return when invalid,
otherwise post to the UI queue a task capturing `shell_->GetEngine()` and
the moved `config`.  (`shell_` is non-null whenever `is_valid_` by
line 84, so the `none` branch is unreachable for constructed holders.) -/
def AndroidShellHolder.Launch (h : AndroidShellHolder)
    (config : RunConfiguration) : AndroidShellHolder :=
  if !h.IsValid then
    h
  else
    match h.shell with
    | none => h
    | some sh =>
        { h with ui_queue := h.ui_queue ++ [Task.launch sh.engine config] }

/-- AndroidShellHolder::SetViewportMetrics (lines 142-154): early return
when invalid, otherwise post to the UI queue a task capturing the engine
handle and a copy of `metrics`. -/
def AndroidShellHolder.SetViewportMetrics (h : AndroidShellHolder)
    (metrics : ViewportMetrics) : AndroidShellHolder :=
  if !h.IsValid then
    h
  else
    match h.shell with
    | none => h
    | some sh =>
        { h with
          ui_queue := h.ui_queue ++ [Task.setViewportMetrics sh.engine metrics] }

/-- AndroidShellHolder::DispatchPointerDataPacket (lines 156-168): early
return when invalid, otherwise post to the UI queue a task capturing the
engine handle and the moved `packet`. -/
def AndroidShellHolder.DispatchPointerDataPacket (h : AndroidShellHolder)
    (packet : Option PointerData) : AndroidShellHolder :=
  if !h.IsValid then
    h
  else
    match h.shell with
    | none => h
    | some sh =>
        { h with
          ui_queue :=
            h.ui_queue ++ [Task.dispatchPointerDataPacket sh.engine packet] }

/-- AndroidShellHolder::Screenshot (lines 170-177): returns
`{nullptr, SkISize::MakeEmpty()}` when invalid, otherwise synchronously
delegates to `shell_->Screenshot`.  The holder state is returned unchanged
alongside the result, witnessing that no task is posted and the instance
is not mutated. -/
def AndroidShellHolder.Screenshot (h : AndroidShellHolder)
    (stype : ScreenshotType) (base64_encode : Bool) :
    Rasterizer.Screenshot × AndroidShellHolder :=
  if !h.IsValid then
    ({ data := none, size := SkISize.MakeEmpty }, h)
  else
    match h.shell with
    | none => ({ data := none, size := SkISize.MakeEmpty }, h)
    | some sh => (sh.screenshotResult stype base64_encode, h)

/-- AndroidShellHolder::GetPlatformView (lines 179-182): returns the weak
handle captured at line 81. -/
def AndroidShellHolder.GetPlatformView (h : AndroidShellHolder) :
    Option PlatformViewAndroid :=
  h.platform_view

/-- The `FXL_DCHECK(platform_view_)` predicate of lines 82 and 180: the
captured weak handle is non-empty. -/
def AndroidShellHolder.GetPlatformViewDcheckPass (h : AndroidShellHolder) :
    Bool :=
  h.platform_view.isSome

/-- Observable calls into the engine made by posted UI tasks. -/
inductive EngineCall where
  | run (config : RunConfiguration)
  | setViewportMetrics (metrics : ViewportMetrics)
  | dispatchPointerDataPacket (packet : PointerData)
deriving DecidableEq

/-- Events performed by a UI-queue task body when it executes. -/
inductive RunEvent where
  | engineCall (c : EngineCall)
  | logError (msg : String)
deriving DecidableEq

/-- Events performed by a priority-tuning task body when it executes:
a `setpriority` attempt at a level, or an error log. -/
inductive PrioEvent where
  | setpriority (level : Int)
  | logError (msg : String)
deriving DecidableEq

/-- Dereference a captured `fml::WeakPtr<Engine>` at task-execution time:
`alive` says which engines still exist when the task runs; the `if
(engine)` checks in the task bodies test exactly this. -/
def derefWeak (alive : Engine → Bool) (w : Option Engine) : Option Engine :=
  match w with
  | none => none
  | some e => if alive e then some e else none

/-- Body of the task posted by `Launch` (lines 131-139): if the captured
engine handle is still valid, call `engine->Run(config)`; when `Run`
reports failure, log.  `runOk` is the oracle for `Engine::Run`'s result. -/
def runLaunchTask (alive : Engine → Bool)
    (runOk : Engine → RunConfiguration → Bool)
    (engine : Option Engine) (config : RunConfiguration) : List RunEvent :=
  match derefWeak alive engine with
  | none => []
  | some e =>
      if runOk e config then
        [RunEvent.engineCall (EngineCall.run config)]
      else
        [RunEvent.engineCall (EngineCall.run config),
         RunEvent.logError "Could not launch engine in configuration."]

/-- Body of the task posted by `SetViewportMetrics` (lines 149-153). -/
def runSetViewportMetricsTask (alive : Engine → Bool)
    (engine : Option Engine) (metrics : ViewportMetrics) : List RunEvent :=
  match derefWeak alive engine with
  | none => []
  | some _ => [RunEvent.engineCall (EngineCall.setViewportMetrics metrics)]

/-- Body of the task posted by `DispatchPointerDataPacket` (lines
163-167): only the engine handle is guarded; inside the guard the packet
is dereferenced unconditionally (`*packet`), so a null packet there is
undefined behaviour, modelled as `none`. -/
def runDispatchTask (alive : Engine → Bool)
    (engine : Option Engine) (packet : Option PointerData) :
    Option (List RunEvent) :=
  match derefWeak alive engine with
  | none => some []
  | some _ =>
      match packet with
      | none => none
      | some p =>
          some [RunEvent.engineCall (EngineCall.dispatchPointerDataPacket p)]

/-- Body of the GPU priority-tuning task (lines 87-98): try `-5`; if the
OS rejects it, try `-2` once; if that is also rejected, log.  `os level`
is `true` when `::setpriority(PRIO_PROCESS, gettid(), level)` returns 0. -/
def runGpuPriorityTask (os : Int → Bool) : List PrioEvent :=
  PrioEvent.setpriority (-5) ::
    (if os (-5) = false then
      PrioEvent.setpriority (-2) ::
        (if os (-2) = false then
          [PrioEvent.logError "Failed to set GPU task runner priority"]
        else [])
    else [])

/-- Body of the UI priority-tuning task (lines 99-103): try `-1` once;
log on rejection. -/
def runUiPriorityTask (os : Int → Bool) : List PrioEvent :=
  PrioEvent.setpriority (-1) ::
    (if os (-1) = false then
      [PrioEvent.logError "Failed to set UI task runner priority"]
    else [])

/-- One step of the destructor (lines 107-111). -/
inductive TeardownStep where
  | releaseShell
  | resetThreadHost
  | deleteThreadKey
deriving DecidableEq

/-- Process-level resources the destructor releases, plus the trace of
teardown steps taken so far. -/
structure ProcessState where
  shellAlive : Bool
  threadHostRunning : Bool
  keyAllocated : Bool
  trace : List TeardownStep

/-- The statement `shell_.reset()` (line 108). -/
def shellReset (s : ProcessState) : ProcessState :=
  { s with shellAlive := false, trace := s.trace ++ [TeardownStep.releaseShell] }

/-- The statement `thread_host_.Reset()` (line 109): stop and join every
worker thread. -/
def threadHostReset (s : ProcessState) : ProcessState :=
  { s with
    threadHostRunning := false
    trace := s.trace ++ [TeardownStep.resetThreadHost] }

/-- The statement `pthread_key_delete(thread_destruct_key_)` (line 110). -/
def keyDelete (s : ProcessState) : ProcessState :=
  { s with
    keyAllocated := false
    trace := s.trace ++ [TeardownStep.deleteThreadKey] }

/-- AndroidShellHolder::~AndroidShellHolder (lines 107-111): the three
statements in source order. -/
def AndroidShellHolder.destructor (s : ProcessState) : ProcessState :=
  keyDelete (threadHostReset (shellReset s))

/-- Number of `jni_exit_task` instances in a queue. -/
def countJniExit (q : List Task) : Nat :=
  (q.filter fun t =>
    match t with
    | Task.jniExit _ => true
    | _ => false).length

/-- Number of `setpriority` attempts at a given level in a priority-task
event trace. -/
def attemptsAt (evs : List PrioEvent) (level : Int) : Nat :=
  (evs.filter fun ev =>
    match ev with
    | PrioEvent.setpriority l => l == level
    | _ => false).length

/-- Number of `Engine::Run` invocations in a UI-task event trace. -/
def countRunCalls (evs : List RunEvent) : Nat :=
  (evs.filter fun ev =>
    match ev with
    | RunEvent.engineCall (EngineCall.run _) => true
    | _ => false).length

/-- A concrete shell used by the witnesses. -/
def sampleShell : Shell :=
  { engine := some 7
    screenshotResult := fun _ _ => { data := some [9], size := (4, 3) } }

/-- A construction environment in which `Shell::Create` succeeds. -/
def envValid : CreateEnv :=
  { key := 2
    shellCreate := some sampleShell
    callbackInvoked := true
    platformViewHandle := 11 }

/-- A construction environment in which `Shell::Create` fails. -/
def envInvalid : CreateEnv :=
  { key := 0
    shellCreate := none
    callbackInvoked := false
    platformViewHandle := 0 }

/-- A holder whose construction succeeded. -/
def holderValid : AndroidShellHolder :=
  AndroidShellHolder.construct envValid 1 5

/-- A holder whose construction failed (`Shell::Create` returned null). -/
def holderInvalid : AndroidShellHolder :=
  AndroidShellHolder.construct envInvalid 1 5

/-- An OS oracle that rejects every `setpriority` request. -/
def osAllFail : Int → Bool := fun _ => false

/-- C1: on an Invalid holder, `Launch`, `SetViewportMetrics`,
`DispatchPointerDataPacket` and `Screenshot` all return immediately: the
holder state (queues included) is returned unchanged, no task is posted,
and `Screenshot` yields the empty result. -/
theorem invalid_holder_public_ops_are_noops
    (h : AndroidShellHolder) (hv : h.IsValid = false)
    (config : RunConfiguration) (metrics : ViewportMetrics)
    (packet : Option PointerData) (stype : ScreenshotType) (b : Bool) :
    h.Launch config = h ∧
    h.SetViewportMetrics metrics = h ∧
    h.DispatchPointerDataPacket packet = h ∧
    h.Screenshot stype b = ({ data := none, size := SkISize.MakeEmpty }, h) := by
  refine ⟨?_, ?_, ?_, ?_⟩ <;>
    simp [AndroidShellHolder.Launch, AndroidShellHolder.SetViewportMetrics,
      AndroidShellHolder.DispatchPointerDataPacket,
      AndroidShellHolder.Screenshot, hv]

/-- Witness for C1 at a concrete invalid holder. -/
theorem invalid_holder_public_ops_are_noops_witness :
    holderInvalid.IsValid = false ∧
    (holderInvalid.Launch 3 = holderInvalid ∧
     holderInvalid.SetViewportMetrics 4 = holderInvalid ∧
     holderInvalid.DispatchPointerDataPacket (some 5) = holderInvalid ∧
     holderInvalid.Screenshot 0 true =
       ({ data := none, size := SkISize.MakeEmpty }, holderInvalid)) :=
  ⟨rfl, invalid_holder_public_ops_are_noops holderInvalid rfl 3 4 (some 5) 0 true⟩

/-- C2 counterexample: construction posts the thread-exit cleanup task
only to the UI and GPU queues (lines 41-42), never to the IO queue, so it
is false that one such task reaches each of the UI, GPU and IO queues —
refuted here at a concrete successful construction. -/
theorem jni_exit_not_posted_to_io_counterexample :
    ¬ (countJniExit (AndroidShellHolder.construct envValid 1 5).ui_queue = 1 ∧
       countJniExit (AndroidShellHolder.construct envValid 1 5).gpu_queue = 1 ∧
       countJniExit (AndroidShellHolder.construct envValid 1 5).io_queue = 1) := by
  intro hclaim
  have hio := hclaim.2.2
  simp [AndroidShellHolder.construct, countJniExit, envValid] at hio

/-- C2 amended: during construction exactly one thread-exit cleanup task
is posted to the UI queue and exactly one to the GPU queue, and none to
the IO queue. -/
theorem jni_exit_posted_once_to_ui_and_gpu
    (env : CreateEnv) (s : Settings) (j : Nat) :
    countJniExit (AndroidShellHolder.construct env s j).ui_queue = 1 ∧
    countJniExit (AndroidShellHolder.construct env s j).gpu_queue = 1 ∧
    countJniExit (AndroidShellHolder.construct env s j).io_queue = 0 := by
  cases hsh : env.shellCreate <;>
    simp [AndroidShellHolder.construct, countJniExit, hsh]

/-- C6: the destructor performs exactly the three teardown steps, in the
order release-EngineInstance, reset-ThreadHost, delete-ThreadExitKey; in
particular the key is released only after the thread host has been torn
down. -/
theorem destructor_performs_steps_in_order (s : ProcessState) :
    AndroidShellHolder.destructor s =
      { shellAlive := false
        threadHostRunning := false
        keyAllocated := false
        trace := s.trace ++ [TeardownStep.releaseShell,
                             TeardownStep.resetThreadHost,
                             TeardownStep.deleteThreadKey] } := by
  simp [AndroidShellHolder.destructor, shellReset, threadHostReset, keyDelete]

/-- C7: `is_valid_` is assigned at the end of construction to whether
`Shell::Create` produced an instance, and every public operation leaves
it unchanged: `IsValid` is immutable after construction. -/
theorem is_valid_set_once_and_immutable
    (env : CreateEnv) (s : Settings) (j : Nat) (h : AndroidShellHolder)
    (config : RunConfiguration) (metrics : ViewportMetrics)
    (packet : Option PointerData) (stype : ScreenshotType) (b : Bool) :
    (AndroidShellHolder.construct env s j).is_valid = env.shellCreate.isSome ∧
    (h.Launch config).IsValid = h.IsValid ∧
    (h.SetViewportMetrics metrics).IsValid = h.IsValid ∧
    (h.DispatchPointerDataPacket packet).IsValid = h.IsValid ∧
    ((h.Screenshot stype b).2).IsValid = h.IsValid := by
  refine ⟨by simp [AndroidShellHolder.construct], ?_, ?_, ?_, ?_⟩ <;>
    cases hv : h.is_valid <;> cases hsh : h.shell <;>
      simp [AndroidShellHolder.Launch, AndroidShellHolder.SetViewportMetrics,
        AndroidShellHolder.DispatchPointerDataPacket,
        AndroidShellHolder.Screenshot, AndroidShellHolder.IsValid, hv, hsh]

/-- C3: on a successfully constructed holder, `Launch(config)` posts a
single task to the UI queue (the other queues are untouched, since only
`ui_queue` changes in the record update), and when that task runs — with
the captured engine handle still valid — `Engine::Run` is invoked exactly
once, and only with that exact `config`. -/
theorem launch_posts_single_run_task
    (env : CreateEnv) (s : Settings) (j : Nat) (config : RunConfiguration)
    (sh : Shell) (hsh : env.shellCreate = some sh)
    (e : Engine) (he : sh.engine = some e)
    (alive : Engine → Bool) (runOk : Engine → RunConfiguration → Bool)
    (halive : alive e = true) :
    (AndroidShellHolder.construct env s j).IsValid = true ∧
    (AndroidShellHolder.construct env s j).Launch config =
      { AndroidShellHolder.construct env s j with
        ui_queue :=
          (AndroidShellHolder.construct env s j).ui_queue ++
            [Task.launch sh.engine config] } ∧
    countRunCalls (runLaunchTask alive runOk sh.engine config) = 1 ∧
    (∀ c, RunEvent.engineCall (EngineCall.run c) ∈
        runLaunchTask alive runOk sh.engine config → c = config) := by
  have hval : (AndroidShellHolder.construct env s j).IsValid = true := by
    simp [AndroidShellHolder.construct, AndroidShellHolder.IsValid, hsh]
  have hshell : (AndroidShellHolder.construct env s j).shell = some sh := by
    simp [AndroidShellHolder.construct, hsh]
  refine ⟨hval, ?_, ?_, ?_⟩
  · simp [AndroidShellHolder.Launch, hval, hshell]
  · rw [he]
    cases hrun : runOk e config <;>
      simp [runLaunchTask, derefWeak, halive, hrun, countRunCalls]
  · intro c hc
    rw [he] at hc
    cases hrun : runOk e config <;>
      simp [runLaunchTask, derefWeak, halive, hrun] at hc <;> exact hc

/-- Witness for C3 at a concrete successful construction. -/
theorem launch_posts_single_run_task_witness :
    holderValid.IsValid = true ∧
    holderValid.Launch 3 =
      { holderValid with
        ui_queue := holderValid.ui_queue ++ [Task.launch sampleShell.engine 3] } ∧
    countRunCalls
      (runLaunchTask (fun _ => true) (fun _ _ => true) sampleShell.engine 3) = 1 ∧
    (∀ c, RunEvent.engineCall (EngineCall.run c) ∈
        runLaunchTask (fun _ => true) (fun _ _ => true) sampleShell.engine 3 →
        c = 3) :=
  launch_posts_single_run_task envValid 1 5 3 sampleShell rfl 7 rfl
    (fun _ => true) (fun _ _ => true) rfl

/-- C4: the GPU priority-tuning task always attempts the primary level
`-5`; it attempts the fallback `-2` exactly once and only when `-5` is
rejected; when both are rejected the trace ends in a log entry and
nothing else; the priority-tuning tasks are posted iff `Shell::Create`
produced an instance, in which case the holder is valid. -/
theorem gpu_priority_fallback_and_validity
    (os : Int → Bool) (env : CreateEnv) (s : Settings) (j : Nat) :
    attemptsAt (runGpuPriorityTask os) (-5) = 1 ∧
    attemptsAt (runGpuPriorityTask os) (-2) = (if os (-5) then 0 else 1) ∧
    (os (-5) = false → os (-2) = false →
      runGpuPriorityTask os =
        [PrioEvent.setpriority (-5), PrioEvent.setpriority (-2),
         PrioEvent.logError "Failed to set GPU task runner priority"]) ∧
    ((Task.gpuPriority ∈ (AndroidShellHolder.construct env s j).gpu_queue ∧
      Task.uiPriority ∈ (AndroidShellHolder.construct env s j).ui_queue) ↔
        env.shellCreate.isSome = true) ∧
    (env.shellCreate.isSome = true →
      (AndroidShellHolder.construct env s j).IsValid = true) := by
  refine ⟨?_, ?_, ?_, ?_, ?_⟩
  · cases h5 : os (-5) <;> cases h2 : os (-2) <;>
      simp only [runGpuPriorityTask, h5, h2] <;> decide
  · cases h5 : os (-5) <;> cases h2 : os (-2) <;>
      simp only [runGpuPriorityTask, h5, h2] <;> decide
  · intro h5 h2
    simp [runGpuPriorityTask, h5, h2]
  · cases hsh : env.shellCreate <;>
      simp [AndroidShellHolder.construct, hsh]
  · intro hsome
    simp [AndroidShellHolder.construct, AndroidShellHolder.IsValid, hsome]

/-- Witness for C4 with an OS that rejects every request and a successful
construction. -/
theorem gpu_priority_fallback_and_validity_witness :
    attemptsAt (runGpuPriorityTask osAllFail) (-5) = 1 ∧
    attemptsAt (runGpuPriorityTask osAllFail) (-2) = 1 ∧
    runGpuPriorityTask osAllFail =
      [PrioEvent.setpriority (-5), PrioEvent.setpriority (-2),
       PrioEvent.logError "Failed to set GPU task runner priority"] ∧
    Task.gpuPriority ∈ (AndroidShellHolder.construct envValid 1 5).gpu_queue ∧
    (AndroidShellHolder.construct envValid 1 5).IsValid = true := by
  have h := gpu_priority_fallback_and_validity osAllFail envValid 1 5
  exact ⟨h.1, by simpa [osAllFail] using h.2.1, h.2.2.1 rfl rfl,
    (h.2.2.2.1.mpr rfl).1, h.2.2.2.2 rfl⟩

/-- C5: `Screenshot` never mutates the holder and never posts a task (the
returned state is the input state); on an Invalid holder it returns the
empty result without consulting the shell; on a Valid holder it returns
the shell's synchronous screenshot result. -/
theorem screenshot_is_synchronous_and_pure
    (h : AndroidShellHolder) (stype : ScreenshotType) (b : Bool) :
    (h.Screenshot stype b).2 = h ∧
    (h.IsValid = false →
      h.Screenshot stype b = ({ data := none, size := SkISize.MakeEmpty }, h)) ∧
    (∀ sh, h.shell = some sh → h.IsValid = true →
      h.Screenshot stype b = (sh.screenshotResult stype b, h)) := by
  refine ⟨?_, ?_, ?_⟩
  · cases hv : h.IsValid <;> cases hsh : h.shell <;>
      simp [AndroidShellHolder.Screenshot, hv, hsh]
  · intro hv
    simp [AndroidShellHolder.Screenshot, hv]
  · intro sh hsh hv
    simp [AndroidShellHolder.Screenshot, hv, hsh]

/-- Witness for C5 at a concrete valid holder and a concrete invalid
holder. -/
theorem screenshot_is_synchronous_and_pure_witness :
    holderValid.Screenshot 0 true =
      (sampleShell.screenshotResult 0 true, holderValid) ∧
    holderInvalid.Screenshot 0 true =
      ({ data := none, size := SkISize.MakeEmpty }, holderInvalid) :=
  ⟨(screenshot_is_synchronous_and_pure holderValid 0 true).2.2 sampleShell rfl rfl,
   (screenshot_is_synchronous_and_pure holderInvalid 0 true).2.1 rfl⟩

/-- C8: when construction captured the weak platform-view handle (the
factory callback was invoked), `GetPlatformView` returns exactly that
handle and the `FXL_DCHECK(platform_view_)` assertion passes. -/
theorem get_platform_view_returns_captured_handle
    (env : CreateEnv) (s : Settings) (j : Nat)
    (hcap : env.callbackInvoked = true) :
    (AndroidShellHolder.construct env s j).GetPlatformView =
      some env.platformViewHandle ∧
    (AndroidShellHolder.construct env s j).GetPlatformViewDcheckPass = true := by
  constructor <;>
    simp [AndroidShellHolder.construct, AndroidShellHolder.GetPlatformView,
      AndroidShellHolder.GetPlatformViewDcheckPass, hcap]

/-- Witness for C8 at a concrete construction that captured the handle. -/
theorem get_platform_view_returns_captured_handle_witness :
    holderValid.GetPlatformView = some 11 ∧
    holderValid.GetPlatformViewDcheckPass = true :=
  get_platform_view_returns_captured_handle envValid 1 5 rfl

/-- C9: every task posted to the UI queue by `Launch`,
`SetViewportMetrics` and `DispatchPointerDataPacket` captures the shell's
engine handle, and its body is a no-op producing no engine calls when the
captured handle no longer dereferences at execution time (the dispatch
task in particular returns cleanly without touching the packet). -/
theorem ui_tasks_guard_engine_handle
    (alive : Engine → Bool) (runOk : Engine → RunConfiguration → Bool)
    (w : Option Engine) (config : RunConfiguration)
    (metrics : ViewportMetrics) (packet : Option PointerData)
    (hdead : derefWeak alive w = none)
    (h : AndroidShellHolder) (sh : Shell) (hsh : h.shell = some sh)
    (hv : h.IsValid = true) :
    (h.Launch config).ui_queue = h.ui_queue ++ [Task.launch sh.engine config] ∧
    (h.SetViewportMetrics metrics).ui_queue =
      h.ui_queue ++ [Task.setViewportMetrics sh.engine metrics] ∧
    (h.DispatchPointerDataPacket packet).ui_queue =
      h.ui_queue ++ [Task.dispatchPointerDataPacket sh.engine packet] ∧
    runLaunchTask alive runOk w config = [] ∧
    runSetViewportMetricsTask alive w metrics = [] ∧
    runDispatchTask alive w packet = some [] := by
  refine ⟨?_, ?_, ?_, ?_, ?_, ?_⟩ <;>
    simp [AndroidShellHolder.Launch, AndroidShellHolder.SetViewportMetrics,
      AndroidShellHolder.DispatchPointerDataPacket, hv, hsh,
      runLaunchTask, runSetViewportMetricsTask, runDispatchTask, hdead]

/-- Witness for C9 with a concrete dead engine handle. -/
theorem ui_tasks_guard_engine_handle_witness :
    (holderValid.Launch 3).ui_queue =
      holderValid.ui_queue ++ [Task.launch sampleShell.engine 3] ∧
    (holderValid.SetViewportMetrics 4).ui_queue =
      holderValid.ui_queue ++ [Task.setViewportMetrics sampleShell.engine 4] ∧
    (holderValid.DispatchPointerDataPacket (some 5)).ui_queue =
      holderValid.ui_queue ++
        [Task.dispatchPointerDataPacket sampleShell.engine (some 5)] ∧
    runLaunchTask (fun _ => false) (fun _ _ => true) (some 7) 3 = [] ∧
    runSetViewportMetricsTask (fun _ => false) (some 7) 4 = [] ∧
    runDispatchTask (fun _ => false) (some 7) (some 5) = some [] :=
  ui_tasks_guard_engine_handle (fun _ => false) (fun _ _ => true) (some 7) 3 4
    (some 5) rfl holderValid sampleShell rfl rfl

/-- C10: in the dispatch task, only the engine handle is guarded: when the
handle dereferences, a non-null packet is dispatched safely (exactly one
engine call carrying the packet), while a null packet is dereferenced with
no guard — undefined behaviour, modelled as `none`. -/
theorem dispatch_task_dereferences_packet_unconditionally
    (alive : Engine → Bool) (w : Option Engine) (e : Engine)
    (he : derefWeak alive w = some e) (p : PointerData) :
    runDispatchTask alive w (some p) =
      some [RunEvent.engineCall (EngineCall.dispatchPointerDataPacket p)] ∧
    runDispatchTask alive w none = none := by
  constructor <;> simp [runDispatchTask, he]

/-- Witness for C10 with a concrete live engine handle. -/
theorem dispatch_task_dereferences_packet_unconditionally_witness :
    runDispatchTask (fun _ => true) (some 7) (some 3) =
      some [RunEvent.engineCall (EngineCall.dispatchPointerDataPacket 3)] ∧
    runDispatchTask (fun _ => true) (some 7) none = none :=
  dispatch_task_dereferences_packet_unconditionally (fun _ => true) (some 7) 7
    rfl 3

end shell
